import Mathlib

/-
Verification of the credential lifecycle manager (src/token_manager.py,
class FeishuTokenManager) and the transcription job engine
(src/backup_before_refactor/utils.py) of the voice_log_app repository.

Modelling conventions (shallow embedding):
* Wall-clock time is an integer number of seconds, passed explicitly as
  `now`.  `datetime.now() + timedelta(seconds=e)` becomes `now + e`.
  Clock drift during a single call (e.g. across retry sleeps) is ignored:
  one call sees one `now`.
* Every method of `FeishuTokenManager` that touches state runs entirely
  inside `with self._lock:` (a single non-reentrant `threading.Lock`), so
  concurrent callers are serialized by the lock.  Concurrent executions
  are therefore modelled as sequences of atomic calls against an explicit
  `ManagerState`.
* HTTP traffic is modelled by oracles: `_fetch_token`'s per-attempt HTTP
  outcome is a function `Nat → AttemptOutcome`; the transcription engine's
  collaborators (OSS upload, task submission, status queries, result
  artifact download) are the fields of `Env`.
* `threading.Timer` objects are modelled by identifiers.  `ManagerState`
  carries the identifier stored in `self._refresh_timer` (the manager
  keeps only the most recently created timer object there) together with
  the list of all timers that are live (created, not yet fired and not
  cancelled).  Creating a timer appends a fresh identifier; `cancel()`
  removes the referenced identifier; a timer that fires is removed from
  the live list as its callback starts.
* `time.sleep` calls are recorded as data (sleep durations / events), not
  executed.
-/

namespace App

/-- Outcome of one HTTP attempt inside `FeishuTokenManager._fetch_token`:
`ok token expire` is a 200 response whose body has `code == 0`, a
`tenant_access_token` and an `expire` lifetime in seconds; `apiError` is a
response with `code != 0` (the method logs and returns `None` at once);
`netError` is a `requests.exceptions.RequestException` (retried);
`otherError` is any other exception (the method returns `None` at once). -/
inductive AttemptOutcome where
  | ok (token : String) (expire : Int)
  | apiError
  | netError
  | otherError
deriving DecidableEq

/-- `self.refresh_margin`: the renewal margin, 300 seconds by default. -/
def refresh_margin : Int := 300

/-- `self.max_retries`: bound on HTTP attempts inside `_fetch_token`. -/
def max_retries : Nat := 3

/-- `self.retry_delay`: base retry delay in seconds. -/
def retry_delay : Nat := 1

/-- The retry loop of `FeishuTokenManager._fetch_token`
(`for attempt in range(self.max_retries)`).  Returns the fetched
`(token, expire_time)` (with `expire_time = now + expire`), the list of
`time.sleep` durations performed between attempts
(`self.retry_delay * (attempt + 1)`), and the number of HTTP attempts
made.  Only `netError` is retried, and only while
`attempt < self.max_retries - 1`; `apiError` and `otherError` return
`None` immediately. -/
def fetchTokenLoop (oracle : Nat → AttemptOutcome) (now : Int) :
    Nat → Nat → Option (String × Int) × List Nat × Nat
  | _, 0 => (none, [], 0)
  | attempt, fuel + 1 =>
    match oracle attempt with
    | .ok t e => (some (t, now + e), [], 1)
    | .apiError => (none, [], 1)
    | .otherError => (none, [], 1)
    | .netError =>
      if attempt < max_retries - 1 then
        let r := fetchTokenLoop oracle now (attempt + 1) fuel
        (r.1, retry_delay * (attempt + 1) :: r.2.1, r.2.2 + 1)
      else
        (none, [], 1)

/-- `FeishuTokenManager._fetch_token`: run the attempt loop from attempt 0
with `max_retries` iterations available. -/
def fetchToken (oracle : Nat → AttemptOutcome) (now : Int) :
    Option (String × Int) × List Nat × Nat :=
  fetchTokenLoop oracle now 0 max_retries

/-- The mutable state of a `FeishuTokenManager` instance together with the
set of live `threading.Timer` objects it has created.  `token` is
`self._token`, `expireTime` is `self._expire_time`, `storedTimer` is the
identifier of the timer object currently referenced by
`self._refresh_timer`, `live` lists the identifiers of all timers that are
pending (started, not yet fired, not cancelled), and `nextId` generates
fresh timer identifiers. -/
structure ManagerState where
  token : Option String
  expireTime : Option Int
  storedTimer : Option Nat
  live : List Nat
  nextId : Nat
deriving DecidableEq

/-- A freshly constructed manager: `self._token = None`,
`self._expire_time = None`, `self._refresh_timer = None`. -/
def initState : ManagerState := ⟨none, none, none, [], 0⟩

/-- What `FeishuTokenManager._schedule_refresh` did: `noTimer` is the
early return when `self._expire_time is None`; `armed id delay` means a
new `threading.Timer(delay, self._refresh_token)` was created and started
(identifier `id`); `immediateRefresh` is the `delay <= 0` branch, which
calls `self._refresh_token()` directly.  Since `_schedule_refresh` is only
ever reached with `self._lock` held and `_refresh_token` begins with
`with self._lock:` on the same non-reentrant `threading.Lock`, the
`immediateRefresh` branch blocks forever (deadlock). -/
inductive ScheduleEffect where
  | noTimer
  | armed (id : Nat) (delay : Int)
  | immediateRefresh
deriving DecidableEq

/-- `FeishuTokenManager._schedule_refresh`.  Computes
`delay = (expire_time - refresh_margin) - now`; if `delay > 0` it creates
and starts a fresh timer and overwrites `self._refresh_timer` with it —
note that the previously referenced timer is NOT cancelled, it merely
stops being referenced and stays in `live` if it was pending — otherwise
it calls `self._refresh_token()` inline (`immediateRefresh`). -/
def scheduleRefresh (s : ManagerState) (now : Int) :
    ManagerState × ScheduleEffect :=
  match s.expireTime with
  | none => (s, .noTimer)
  | some et =>
    let delay := et - refresh_margin - now
    if delay > 0 then
      ({ s with storedTimer := some s.nextId,
                live := s.live ++ [s.nextId],
                nextId := s.nextId + 1 },
       .armed s.nextId delay)
    else
      (s, .immediateRefresh)

/-- The cache-miss test at the top of `FeishuTokenManager.get_token`:
`self._token is None or self._expire_time is None or
datetime.now() >= self._expire_time - timedelta(seconds=self.refresh_margin)`. -/
def needsFetch (s : ManagerState) (now : Int) : Bool :=
  match s.token, s.expireTime with
  | some _, some et => decide (now ≥ et - refresh_margin)
  | _, _ => true

/-- How a `get_token()` call ends: `returns r` models `return r`
(`r = none` is Python `None`); `deadlock` marks the execution reaching
`_schedule_refresh`'s `delay <= 0` branch, where `_refresh_token()` tries
to re-acquire the non-reentrant lock the call already holds, so the call
never returns. -/
inductive GetTokenOutcome where
  | returns (r : Option String)
  | deadlock
deriving DecidableEq

/-- `FeishuTokenManager.get_token`.  The whole body runs under
`self._lock`.  Returns the state after the call, the call's outcome, and
the number of `_fetch_token` invocations (0 or 1). -/
def get_token (s : ManagerState) (now : Int) (oracle : Nat → AttemptOutcome) :
    ManagerState × GetTokenOutcome × Nat :=
  if needsFetch s now then
    match (fetchToken oracle now).1 with
    | some (t, et) =>
      let s1 := { s with token := some t, expireTime := some et }
      match scheduleRefresh s1 now with
      | (s2, .immediateRefresh) => (s2, .deadlock, 1)
      | (s2, _) => (s2, .returns (some t), 1)
    | none => (s, .returns none, 1)
  else
    (s, .returns s.token, 0)

/-- `FeishuTokenManager._refresh_token`, as run by a firing timer with
identifier `id` (the timer leaves the pending set as its callback starts).
On fetch success it stores the new credential and calls
`_schedule_refresh`; on failure it leaves `self._token` and
`self._expire_time` untouched and arms a fresh retry timer
`threading.Timer(300, self._refresh_token)`. -/
def fireRefresh (s : ManagerState) (id : Nat) (now : Int)
    (oracle : Nat → AttemptOutcome) : ManagerState × ScheduleEffect :=
  let s0 := { s with live := s.live.erase id }
  match (fetchToken oracle now).1 with
  | some (t, et) =>
    scheduleRefresh { s0 with token := some t, expireTime := some et } now
  | none =>
    ({ s0 with storedTimer := some s0.nextId,
               live := s0.live ++ [s0.nextId],
               nextId := s0.nextId + 1 },
     .armed s0.nextId 300)

/-- `FeishuTokenManager.stop`: `if self._refresh_timer:
self._refresh_timer.cancel()`.  Cancelling removes the referenced timer
from the pending set if it is still pending; it has no effect on any
other live timer. -/
def stop (s : ManagerState) : ManagerState :=
  match s.storedTimer with
  | none => s
  | some id => { s with live := s.live.erase id }

/-- `n` concurrent callers of `get_token()` arriving together, serialized
by `self._lock` (each call's body is atomic under the lock): the calls run
one after the other against the shared state, all at the same wall-clock
instant `now`. -/
def runCallers (s : ManagerState) (now : Int)
    (oracle : Nat → AttemptOutcome) :
    Nat → ManagerState × List GetTokenOutcome × Nat
  | 0 => (s, [], 0)
  | n + 1 =>
    let r := get_token s now oracle
    let rest := runCallers r.1 now oracle n
    (rest.1, r.2.1 :: rest.2.1, r.2.2 + rest.2.2)

/-- The `Data` payload of one Tingwu status-query response, as read by
`transcribe_audio`: `taskStatus` is `Data.TaskStatus` (absent key gives
Python `None`), `transcription` is `Data.Result.Transcription` (the result
artifact URL), `errorCode` is `Data.ErrorCode` and `errorMessage` is
`Data.ErrorMessage` (their absence is handled at the use site by
`dict.get` defaults, as in the code). -/
structure TaskData where
  taskStatus : Option String
  transcription : Option String
  errorCode : Option String
  errorMessage : Option String
deriving DecidableEq

/-- The external collaborators of `transcribe_audio`
(src/backup_before_refactor/utils.py), each already wrapped the way the
code wraps it: `uploadResult` is what `upload_file_to_oss` returns (it
catches its own exceptions and returns `None` on failure); `submitResult`
is what `submit_transcription_task` returns; `queryResult i` is what the
`i`-th call (0-based) of `get_task_result` returns (`none` is a failed
query — that function catches exceptions and returns `None`);
`artifact url` is the `Transcription.Paragraphs` list of the JSON document
downloaded from `url`, each paragraph the list of its `Words` entries'
`Text` fragments (`none` means the download or JSON parse in
`download_and_parse_transcription` raised). -/
structure Env where
  uploadResult : Option String
  submitResult : Option String
  queryResult : Nat → Option TaskData
  artifact : String → Option (List (List String))

/-- Python's `str.strip()` with no arguments: remove whitespace from both
ends of the string.  Implemented over the character list so that it
reduces in the kernel. -/
def pyStrip (s : String) : String :=
  String.mk
    (((s.data.dropWhile Char.isWhitespace).reverse.dropWhile
        Char.isWhitespace).reverse)

/-- The paragraph loop of `download_and_parse_transcription`: for each
paragraph, if its `Words` list is non-empty, join the `Text` fragments
with no separator (`''.join`), strip the result, and keep it when the
stripped text is non-empty (`if para_text.strip(): all_text.append(...)`).
-/
def collectParas : List (List String) → List String
  | [] => []
  | words :: rest =>
    if words ≠ [] then
      if pyStrip (String.join words) ≠ "" then
        pyStrip (String.join words) :: collectParas rest
      else
        collectParas rest
    else
      collectParas rest

/-- The parsing part of `download_and_parse_transcription`:
`'\n'.join(all_text)` over the collected paragraph texts. -/
def parseTranscription (paragraphs : List (List String)) : String :=
  String.intercalate "\n" (collectParas paragraphs)

/-- `download_and_parse_transcription` applied to an already-downloaded
artifact: a download or JSON-parse exception (`artifact = none`) is caught
and converted to the fixed sentinel string; otherwise the paragraphs are
parsed. -/
def download_and_parse_transcription
    (artifact : Option (List (List String))) : String :=
  match artifact with
  | none => "转录文件解析失败"
  | some paragraphs => parseTranscription paragraphs

/-- The string `transcribe_audio` returns for a `FAILED` task:
`f"任务处理失败: [{error_code}] {error_message}"`. -/
def jobFailedMsg (errorCode errorMessage : String) : String :=
  "任务处理失败: [" ++ errorCode ++ "] " ++ errorMessage

/-- `max_retries = 30` in `transcribe_audio`: the poll attempt bound. -/
def max_poll_retries : Nat := 30

/-- `retry_interval = 10` in `transcribe_audio`: seconds between polls. -/
def retry_interval : Nat := 10

/-- Observable actions of the poll loop: `query i` is the completion of
the `i`-th (0-based) `get_task_result` call, `sleep d` a
`time.sleep(d)`. -/
inductive Event where
  | query (i : Nat)
  | sleep (d : Nat)
deriving DecidableEq

/-- The polling `for i in range(max_retries)` loop of `transcribe_audio`,
with `fuel` iterations remaining and `i` the index of the next query.
Every branch of the loop body returns a string or sleeps
`retry_interval` seconds and continues: `COMPLETED` hands the artifact to
`download_and_parse_transcription` (or returns the missing-URL sentinel),
`FAILED` returns `jobFailedMsg` built from `Data.ErrorCode` (default
`''`) and `Data.ErrorMessage` (default `'未知错误'`), `INVALID` returns
its sentinel, and `ONGOING`, any other status, a missing status and a
failed query (`None` result) all sleep and consume one attempt.
Exhausting the attempts returns the timeout sentinel. -/
def transcribeLoop (env : Env) : Nat → Nat → String × List Event
  | 0, _ => ("任务处理超时", [])
  | fuel + 1, i =>
    match env.queryResult i with
    | some result =>
      if result.taskStatus = some "COMPLETED" then
        match result.transcription with
        | some url =>
          (download_and_parse_transcription (env.artifact url),
           [Event.query i])
        | none => ("转录成功，但未找到结果文件URL", [Event.query i])
      else if result.taskStatus = some "FAILED" then
        (jobFailedMsg (result.errorCode.getD "")
           (result.errorMessage.getD "未知错误"),
         [Event.query i])
      else if result.taskStatus = some "INVALID" then
        ("任务无效，请检查输入参数", [Event.query i])
      else
        let r := transcribeLoop env fuel (i + 1)
        (r.1, Event.query i :: Event.sleep retry_interval :: r.2)
    | none =>
      let r := transcribeLoop env fuel (i + 1)
      (r.1, Event.query i :: Event.sleep retry_interval :: r.2)

/-- `transcribe_audio`: upload to OSS (Python falsiness makes both `None`
and `''` count as failure, `if not file_url`), submit the task
(`if not task_id`), then poll.  Returns Python `None` (`none`) on upload
or submission failure; otherwise the poll loop's string, paired with the
loop's event trace.  The body's `try/except` returns `None` on an
internal exception; every collaborator is modelled post-wrapping (each
already catches its own exceptions), so no exception escapes in the
model. -/
def transcribe_audio (env : Env) : Option String × List Event :=
  match env.uploadResult with
  | none => (none, [])
  | some file_url =>
    if file_url = "" then (none, [])
    else
      match env.submitResult with
      | none => (none, [])
      | some task_id =>
        if task_id = "" then (none, [])
        else
          let r := transcribeLoop env max_poll_retries 0
          (some r.1, r.2)

/-- Written from the spec's own words (§4.2) for the refinement
comparison with `parseTranscription`: "concatenates word fragments within
a paragraph with no separator ..., trims the paragraph, drops empty
paragraphs, and joins surviving paragraphs with a single newline". -/
def parseTranscriptionSpec (paragraphs : List (List String)) : String :=
  String.intercalate "\n"
    ((paragraphs.map fun ws => pyStrip (String.join ws)).filter
      fun t => t ≠ "")

/-- A status-query result the poll loop does not treat as terminal: a
failed query (`None`) or any `TaskStatus` other than `COMPLETED`,
`FAILED` and `INVALID` (including a missing status, `ONGOING`, `PENDING`
and unrecognized strings). -/
def nonTerminal : Option TaskData → Prop
  | none => True
  | some d =>
    d.taskStatus ≠ some "COMPLETED" ∧ d.taskStatus ≠ some "FAILED" ∧
      d.taskStatus ≠ some "INVALID"

/-- The event trace of `fuel` consecutive still-in-progress poll
iterations starting at query index `i`: each completed status query is
followed by one 10-second sleep. -/
def pollTrace : Nat → Nat → List Event
  | 0, _ => []
  | fuel + 1, i =>
    Event.query i :: Event.sleep retry_interval :: pollTrace fuel (i + 1)

/-- Number of completed status queries recorded in an event trace. -/
def countQueries (evs : List Event) : Nat :=
  evs.countP fun e =>
    match e with
    | .query _ => true
    | _ => false

/-- The OSS upload step failed from `transcribe_audio`'s point of view:
`upload_file_to_oss` returned `None`, or a Python-falsy URL. -/
def uploadFailed (env : Env) : Prop :=
  env.uploadResult = none ∨ env.uploadResult = some ""

/-- The submission step failed from `transcribe_audio`'s point of view:
`submit_transcription_task` returned `None`, or a Python-falsy task id. -/
def submitFailed (env : Env) : Prop :=
  env.submitResult = none ∨ env.submitResult = some ""

/-- Timeline for the C4 counterexample, step 1: a `get_token()` cache
miss at `t = 0`; the fetch succeeds with a 7200-second lifetime, so
`_schedule_refresh` arms timer 0 with delay 6900. -/
def c4step1 : ManagerState :=
  (get_token initState 0 (fun _ => AttemptOutcome.ok "tokA" 7200)).1

/-- Timeline step 2: timer 0 fires at `t = 6900` and its `_refresh_token`
fetch fails (all attempts are network errors), so a retry timer 1 with
delay 300 is armed (it will fire at `t = 7200`). -/
def c4step2 : ManagerState :=
  (fireRefresh c4step1 0 6900 (fun _ => AttemptOutcome.netError)).1

/-- Timeline step 3: a `get_token()` call at `t = 7000` sees the cached
credential inside its renewal margin (7000 ≥ 7200 − 300), fetches
successfully and arms timer 2 — while the retry timer 1 is still
pending. -/
def c4step3 : ManagerState :=
  (get_token c4step2 7000 (fun _ => AttemptOutcome.ok "tokB" 7200)).1

/-- A manager state with two pending timers (3 and 5) of which 5 is the
stored handle; used to instantiate the amended C4 theorem. -/
def c4wState : ManagerState := ⟨none, some 1000, some 5, [3, 5], 6⟩

/-- A manager holding a cached credential that expires at `t = 1000`;
used to instantiate C2's no-fetch branch. -/
def c2sValid : ManagerState := ⟨some "tok", some 1000, none, [], 0⟩

/-- A manager holding a credential expiring at `t = 10000`, with its
background renewal timer 7 pending; used to instantiate C5. -/
def c5state : ManagerState := ⟨some "tok", some 10000, some 7, [7], 8⟩

/-- An environment whose status queries all fail (`None` results), so the
poll loop never sees a terminal state; used to instantiate C7. -/
def c7env : Env := ⟨some "u", some "t", fun _ => none, fun _ => none⟩

/-- An environment whose job completes on the first poll and whose result
artifact contains no paragraphs, so the parsed transcript is the empty
string; the C10 counterexample. -/
def c10cexEnv : Env :=
  ⟨some "u", some "t",
    fun _ => some ⟨some "COMPLETED", some "r", none, none⟩,
    fun _ => some []⟩

/-- A cached credential whose expiry lies strictly more than
`refresh_margin` in the future is returned as-is: `get_token` leaves the
state untouched, returns the cached token, and performs no fetch. -/
theorem getToken_valid (s : ManagerState) (now : Int)
    (oracle : Nat → AttemptOutcome) (t : String) (et : Int)
    (h1 : s.token = some t) (h2 : s.expireTime = some et)
    (h3 : now < et - refresh_margin) :
    get_token s now oracle = (s, .returns (some t), 0) := by
  have hnf : needsFetch s now = false := by
    unfold needsFetch
    rw [h1, h2]
    simp
    omega
  unfold get_token
  rw [hnf]
  simp [h1]

/-- When the first HTTP attempt succeeds, `_fetch_token` returns the
token with expiry `now + e` after exactly one attempt and no retry
sleeps. -/
theorem fetchToken_ok (oracle : Nat → AttemptOutcome) (now : Int)
    (tok : String) (e : Int) (h : oracle 0 = .ok tok e) :
    fetchToken oracle now = (some (tok, now + e), [], 1) := by
  unfold fetchToken
  show fetchTokenLoop oracle now 0 (2 + 1) = _
  unfold fetchTokenLoop
  rw [h]

/-- When the computed delay `expire_time - refresh_margin - now` is
positive, `_schedule_refresh` arms a fresh timer with exactly that delay
and stores its handle, leaving every previously live timer live. -/
theorem scheduleRefresh_pos (s : ManagerState) (now et : Int)
    (h2 : s.expireTime = some et) (h3 : et - refresh_margin - now > 0) :
    scheduleRefresh s now =
      ({ s with storedTimer := some s.nextId,
                live := s.live ++ [s.nextId],
                nextId := s.nextId + 1 },
       .armed s.nextId (et - refresh_margin - now)) := by
  unfold scheduleRefresh
  rw [h2]
  simp [h3]

/-- A cache-miss `get_token` call whose fetch succeeds with a lifetime
above the renewal margin stores the credential, arms one renewal timer,
and returns the fetched token after exactly one `_fetch_token` call. -/
theorem getToken_miss_ok (s : ManagerState) (now : Int)
    (oracle : Nat → AttemptOutcome) (tok : String) (e : Int)
    (hmiss : needsFetch s now = true) (hok : oracle 0 = .ok tok e)
    (he : refresh_margin < e) :
    get_token s now oracle =
      ({ s with token := some tok, expireTime := some (now + e),
                storedTimer := some s.nextId,
                live := s.live ++ [s.nextId],
                nextId := s.nextId + 1 },
       .returns (some tok), 1) := by
  unfold get_token
  rw [hmiss]
  rw [fetchToken_ok oracle now tok e hok]
  simp only []
  rw [scheduleRefresh_pos _ now (now + e) rfl (by omega)]
  simp

/-- Any number of serialized `get_token` calls against a state holding a
credential that is still outside its renewal margin all return that
credential and perform no fetch. -/
theorem runCallers_valid (s : ManagerState) (now : Int)
    (oracle : Nat → AttemptOutcome) (t : String) (et : Int)
    (h1 : s.token = some t) (h2 : s.expireTime = some et)
    (h3 : now < et - refresh_margin) :
    ∀ n, runCallers s now oracle n =
      (s, List.replicate n (.returns (some t)), 0) := by
  intro n
  induction n with
  | zero => rfl
  | succ n ih =>
    unfold runCallers
    rw [getToken_valid s now oracle t et h1 h2 h3]
    simp [ih, List.replicate_succ]

/-- The paragraph loop of `download_and_parse_transcription` computes the
map-then-filter of the paragraph list: join each paragraph's fragments,
strip, and keep the non-empty results in order. -/
theorem collectParas_eq (l : List (List String)) :
    collectParas l =
      (l.map fun ws => pyStrip (String.join ws)).filter fun t => t ≠ "" := by
  induction l with
  | nil => rfl
  | cons words rest ih =>
    by_cases hw : words = []
    · subst hw
      simp [collectParas, ih, show pyStrip (String.join []) = "" from rfl]
    · by_cases ht : pyStrip (String.join words) = ""
      · simp [collectParas, hw, ht, ih]
      · simp [collectParas, hw, ht, ih]

/-- If every status query a poll loop of `fuel` remaining attempts will
make is still-in-progress, the loop exhausts its attempts, returns the
timeout sentinel, and its trace is one query followed by one 10-second
sleep per attempt. -/
theorem transcribeLoop_nonterminal (env : Env) :
    ∀ fuel i,
      (∀ j, i ≤ j → j < i + fuel → nonTerminal (env.queryResult j)) →
      transcribeLoop env fuel i = ("任务处理超时", pollTrace fuel i) := by
  intro fuel
  induction fuel with
  | zero => intro i _; rfl
  | succ fuel ih =>
    intro i h
    have hi := h i le_rfl (by omega)
    have hrest : transcribeLoop env fuel (i + 1) =
        ("任务处理超时", pollTrace fuel (i + 1)) :=
      ih (i + 1) (fun j hj1 hj2 => h j (by omega) (by omega))
    unfold transcribeLoop pollTrace
    cases hq : env.queryResult i with
    | none => simp [hrest]
    | some d =>
      rw [hq] at hi
      obtain ⟨h1, h2, h3⟩ := hi
      dsimp only
      rw [if_neg h1, if_neg h2, if_neg h3]
      simp [hrest]

/-- C1: for every set of concurrent `get_token()` callers arriving while
no valid credential is cached (`needsFetch` holds — no token, no expiry,
or expiry within the margin), with the fetch succeeding on its first
attempt with a lifetime above the renewal margin, exactly one
`_fetch_token` call is issued in total and every caller observes the same
refreshed credential.  Concurrency is modelled by lock-serialization: the
entire body of `get_token` runs under the manager's single
`threading.Lock`, so the N concurrent callers execute as N consecutive
atomic calls; the first fetches, the remaining N−1 (which were blocked on
the lock, i.e. waiting on that fetch's result) find the fresh credential
outside its margin and return it without fetching. -/
theorem claim_C1 (s : ManagerState) (now : Int) (oracle : Nat → AttemptOutcome)
    (tok : String) (e : Int) (n : Nat)
    (hmiss : needsFetch s now = true)
    (hok : oracle 0 = .ok tok e)
    (he : refresh_margin < e)
    (hn : 1 ≤ n) :
    (runCallers s now oracle n).2.2 = 1 ∧
      (runCallers s now oracle n).2.1 =
        List.replicate n (.returns (some tok)) := by
  obtain ⟨m, rfl⟩ : ∃ m, n = m + 1 := ⟨n - 1, by omega⟩
  unfold runCallers
  rw [getToken_miss_ok s now oracle tok e hmiss hok he]
  have hval := runCallers_valid
    ({ s with token := some tok, expireTime := some (now + e),
              storedTimer := some s.nextId, live := s.live ++ [s.nextId],
              nextId := s.nextId + 1 })
    now oracle tok (now + e) rfl rfl (by omega) m
  simp [hval, List.replicate_succ]

/-- C1 witness: three concurrent callers hitting a fresh manager at
`t = 0`, with the fetch succeeding with a 7200-second lifetime, trigger
exactly one fetch and all read back the same token. -/
theorem claim_C1_wit :
    (runCallers initState 0 (fun _ => AttemptOutcome.ok "tokA" 7200) 3).2.2 = 1 ∧
      (runCallers initState 0 (fun _ => AttemptOutcome.ok "tokA" 7200) 3).2.1 =
        List.replicate 3 (GetTokenOutcome.returns (some "tokA")) :=
  claim_C1 initState 0 _ "tokA" 7200 3 (by decide) rfl (by decide) (by decide)

/-- C2: (a) when a credential is cached whose expiry lies strictly more
than `refresh_margin` (300 s) in the future, `get_token()` returns it
unchanged and performs no fetch; (b) when no token or no expiry is cached,
or the remaining lifetime is at or below the margin
(`now ≥ expire_time - refresh_margin`), exactly one synchronous
`_fetch_token` call is performed during the call. -/
theorem claim_C2 :
    (∀ (s : ManagerState) (now : Int) (oracle : Nat → AttemptOutcome)
        (t : String) (et : Int), s.token = some t → s.expireTime = some et →
        now < et - refresh_margin →
        get_token s now oracle = (s, .returns (some t), 0)) ∧
      (∀ (s : ManagerState) (now : Int) (oracle : Nat → AttemptOutcome),
        (s.token = none ∨ s.expireTime = none ∨
          ∃ et, s.expireTime = some et ∧ now ≥ et - refresh_margin) →
        (get_token s now oracle).2.2 = 1) := by
  constructor
  · intro s now oracle t et h1 h2 h3
    exact getToken_valid s now oracle t et h1 h2 h3
  · intro s now oracle h
    have hnf : needsFetch s now = true := by
      unfold needsFetch
      rcases h with h | h | ⟨et, h, hge⟩
      · rw [h]
      · rw [h]
        rcases s.token with _ | t <;> rfl
      · rw [h]
        rcases s.token with _ | t
        · rfl
        · simp [hge]
    unfold get_token
    rw [hnf]
    rcases hf : (fetchToken oracle now).1 with _ | ⟨t, et⟩
    · simp
    · simp only [if_true]
      rcases hsr : scheduleRefresh
          { s with token := some t, expireTime := some et } now with ⟨s2, eff⟩
      cases eff <;> rfl

/-- C2 witness: a manager caching a token that expires at `t = 1000`,
asked at `t = 0` (margin 300, so 0 < 700), returns the cached token with
zero fetches; a fresh manager asked at `t = 0` performs exactly one
fetch. -/
theorem claim_C2_wit :
    get_token c2sValid 0 (fun _ => AttemptOutcome.netError) =
      (c2sValid, .returns (some "tok"), 0) ∧
      (get_token initState 0 (fun _ => AttemptOutcome.netError)).2.2 = 1 :=
  ⟨claim_C2.1 c2sValid 0 _ "tok" 1000 rfl rfl (by decide),
   claim_C2.2 initState 0 _ (Or.inl rfl)⟩

/-- C3: when every HTTP attempt fails with a network error, the fetch
inside `get_token()` is retried up to the fixed bound of 3 attempts, with
backoff sleeps of 1 s then 2 s between attempts — the code computes them
as `retry_delay * (attempt + 1)`, which for this bound coincides with the
claimed doubling sequence `retry_delay * 2^0, retry_delay * 2^1` — and
the call then surfaces failure to the caller by returning Python `None`
(the spec's `CredentialUnavailable`). -/
theorem claim_C3 (oracle : Nat → AttemptOutcome) (now : Int) (s : ManagerState)
    (hnet : ∀ i, i < max_retries → oracle i = .netError)
    (hmiss : needsFetch s now = true) :
    fetchToken oracle now = (none, [1, 2], 3) ∧
      ([1, 2] : List Nat) = [retry_delay * 2 ^ 0, retry_delay * 2 ^ 1] ∧
      get_token s now oracle = (s, .returns none, 1) := by
  have hf : fetchToken oracle now = (none, [1, 2], 3) := by
    have e0 := hnet 0 (by decide)
    have e1 := hnet 1 (by decide)
    have e2 := hnet 2 (by decide)
    unfold fetchToken
    simp [fetchTokenLoop, e0, e1, e2, max_retries, retry_delay]
  refine ⟨hf, by decide, ?_⟩
  unfold get_token
  rw [hmiss, hf]
  rfl

/-- C3 witness: a fresh manager at `t = 0` whose every HTTP attempt is a
network error makes 3 attempts, sleeps 1 s and 2 s, and returns `None`. -/
theorem claim_C3_wit :
    fetchToken (fun _ => AttemptOutcome.netError) 0 = (none, [1, 2], 3) ∧
      ([1, 2] : List Nat) = [retry_delay * 2 ^ 0, retry_delay * 2 ^ 1] ∧
      get_token initState 0 (fun _ => AttemptOutcome.netError) =
        (initState, .returns none, 1) :=
  claim_C3 (fun _ => AttemptOutcome.netError) 0 initState
    (fun i _ => rfl) (by decide)

/-- C4 counterexample refuting "at most one pending timer is live,
arming a new renewal cancels any previously pending one, and after
`stop()` no pending renewal remains": a cache-miss `get_token()` at
`t = 0` arms timer 0 (delay 6900); timer 0 fires at `t = 6900` and its
fetch fails, arming retry timer 1 (delay 300, due `t = 7200`); a
`get_token()` at `t = 7000` (inside the margin of the cached expiry 7200)
fetches successfully and arms timer 2 — `_schedule_refresh` merely
overwrites `self._refresh_timer` without cancelling, so timers 1 and 2
are BOTH pending; `stop()` then cancels only the stored timer 2, leaving
timer 1 pending. -/
theorem claim_C4_cex :
    c4step1.live = [0] ∧ c4step2.live = [1] ∧ c4step3.live = [1, 2] ∧
      (stop c4step3).live = [1] := by decide

/-- C4 (amended): arming a new renewal does not cancel any previously
pending timer — every timer live before `_schedule_refresh` runs is still
live after it (so two renewal timers can overlap, as the counterexample
trace reaches) — and `stop()` cancels only the timer currently referenced
by `self._refresh_timer`: any other live timer survives `stop()`. -/
theorem claim_C4 :
    (∀ (s : ManagerState) (now : Int) (id : Nat),
      id ∈ s.live → id ∈ ((scheduleRefresh s now).1).live) ∧
      (∀ (s : ManagerState) (id : Nat),
        id ∈ s.live → s.storedTimer ≠ some id → id ∈ (stop s).live) := by
  constructor
  · intro s now id hid
    unfold scheduleRefresh
    cases het : s.expireTime with
    | none => exact hid
    | some et =>
      dsimp only
      by_cases hd : et - refresh_margin - now > 0
      · rw [if_pos hd]
        exact List.mem_append_left _ hid
      · rw [if_neg hd]
        exact hid
  · intro s id hid hst
    unfold stop
    cases hs : s.storedTimer with
    | none => exact hid
    | some j =>
      dsimp only
      rw [hs] at hst
      exact (List.mem_erase_of_ne fun h : id = j => hst (by rw [h])).mpr hid

/-- C4 witness: in a state with pending timers 3 and 5 where 5 is the
stored handle, arming a new renewal keeps timer 3 pending, and `stop()`
also keeps timer 3 pending. -/
theorem claim_C4_wit :
    3 ∈ ((scheduleRefresh c4wState 0).1).live ∧ 3 ∈ (stop c4wState).live :=
  ⟨claim_C4.1 c4wState 0 3 (by decide),
   claim_C4.2 c4wState 3 (by decide) (by decide)⟩

/-- C5: when a background renewal's fetch fails, the stored credential
and expiry are left unchanged (not cleared), a retry timer with the fixed
300-second delay is armed, and a later `get_token()` before the margin of
the still-stored expiry keeps returning the last good token with no
fetch. -/
theorem claim_C5 (s : ManagerState) (id : Nat) (now : Int)
    (oracle : Nat → AttemptOutcome)
    (hfail : (fetchToken oracle now).1 = none) :
    (fireRefresh s id now oracle).1.token = s.token ∧
      (fireRefresh s id now oracle).1.expireTime = s.expireTime ∧
      (fireRefresh s id now oracle).2 = .armed s.nextId 300 ∧
      s.nextId ∈ (fireRefresh s id now oracle).1.live ∧
      ∀ (t : String) (et nowL : Int) (oracle2 : Nat → AttemptOutcome),
        s.token = some t → s.expireTime = some et →
        nowL < et - refresh_margin →
        get_token (fireRefresh s id now oracle).1 nowL oracle2 =
          ((fireRefresh s id now oracle).1, .returns (some t), 0) := by
  have hfr : fireRefresh s id now oracle =
      ({ s with live := (s.live.erase id) ++ [s.nextId],
                storedTimer := some s.nextId,
                nextId := s.nextId + 1 },
       .armed s.nextId 300) := by
    unfold fireRefresh
    rw [hfail]
  rw [hfr]
  refine ⟨rfl, rfl, rfl, by simp, ?_⟩
  intro t et nowL oracle2 h1 h2 h3
  exact getToken_valid _ nowL oracle2 t et h1 h2 h3

/-- C5 witness: a manager caching a token that expires at `t = 10000`
whose renewal timer 7 fires at `t = 9700` and fails keeps the token and
expiry, arms retry timer 8 with delay 300, and a `get_token()` at
`t = 9000` still returns the cached token without fetching. -/
theorem claim_C5_wit :
    (fireRefresh c5state 7 9700 (fun _ => AttemptOutcome.netError)).1.token =
      some "tok" ∧
      (fireRefresh c5state 7 9700
        (fun _ => AttemptOutcome.netError)).1.expireTime = some 10000 ∧
      (fireRefresh c5state 7 9700 (fun _ => AttemptOutcome.netError)).2 =
        .armed 8 300 ∧
      (8 : Nat) ∈
        (fireRefresh c5state 7 9700 (fun _ => AttemptOutcome.netError)).1.live ∧
      get_token (fireRefresh c5state 7 9700
          (fun _ => AttemptOutcome.netError)).1 9000
          (fun _ => AttemptOutcome.netError) =
        ((fireRefresh c5state 7 9700 (fun _ => AttemptOutcome.netError)).1,
          .returns (some "tok"), 0) := by
  have h := claim_C5 c5state 7 9700 (fun _ => AttemptOutcome.netError) (by decide)
  exact ⟨h.1, h.2.1, h.2.2.1, h.2.2.2.1,
    h.2.2.2.2 "tok" 10000 9000 _ rfl rfl (by decide)⟩

/-- C6: evaluation at the failing input.  A cache-miss `get_token()`
whose fetch returns an already-stale lifetime (100 s ≤ the 300 s margin)
does perform its one fetch, but then `_schedule_refresh` computes a delay
≤ 0 and calls `self._refresh_token()` inline; `_refresh_token` begins
with `with self._lock:` on the same non-reentrant `threading.Lock` the
`get_token` call is still holding, so the call blocks forever instead of
renewing immediately and returning — contradicting both the spec and the
code's own comment at that branch ("立即刷新", refresh immediately). -/
theorem claim_C6 :
    (get_token initState 0 (fun _ => AttemptOutcome.ok "tok" 100)).2.1 =
      GetTokenOutcome.deadlock ∧
      (get_token initState 0 (fun _ => AttemptOutcome.ok "tok" 100)).2.2 = 1 := by
  decide

/-- C7: for every environment whose status queries never return a
terminal state within the 30 attempts (unrecognized statuses, missing
statuses, `ONGOING`/`PENDING` and failed queries all count as
still-in-progress), `transcribe_audio` completes exactly 30 status
queries, each followed by one 10-second sleep, and returns the timeout
sentinel string (the spec's `JobTimeout`). -/
theorem claim_C7 (env : Env) (u t : String)
    (hu : env.uploadResult = some u) (hu0 : u ≠ "")
    (ht : env.submitResult = some t) (ht0 : t ≠ "")
    (hq : ∀ j, j < max_poll_retries → nonTerminal (env.queryResult j)) :
    transcribe_audio env =
      (some "任务处理超时", pollTrace max_poll_retries 0) ∧
      countQueries (transcribe_audio env).2 = 30 ∧
      (transcribe_audio env).2.count (Event.sleep 10) = 30 := by
  have hloop := transcribeLoop_nonterminal env max_poll_retries 0
    (fun j _ hj2 => hq j (by omega))
  have hmain : transcribe_audio env =
      (some "任务处理超时", pollTrace max_poll_retries 0) := by
    unfold transcribe_audio
    rw [hu]
    dsimp only
    rw [if_neg hu0, ht]
    dsimp only
    rw [if_neg ht0]
    simp [hloop]
  refine ⟨hmain, ?_, ?_⟩
  · rw [hmain]; decide
  · rw [hmain]; decide

/-- C7 witness: an environment whose 30 status queries all fail makes
exactly 30 queries and 30 sleeps of 10 s and returns the timeout
sentinel. -/
theorem claim_C7_wit :
    transcribe_audio c7env =
      (some "任务处理超时", pollTrace max_poll_retries 0) ∧
      countQueries (transcribe_audio c7env).2 = 30 ∧
      (transcribe_audio c7env).2.count (Event.sleep 10) = 30 :=
  claim_C7 c7env "u" "t" rfl (by decide) rfl (by decide) (fun j _ => trivial)

/-- C8 counterexample: on the artifact with paragraphs
`[["He","llo"], [" ","World"]]` the code yields `"Hello\nWorld"` — the
second paragraph `" World"` is stripped on BOTH ends by
`para_text.strip()` — not the `"Hello\n World"` the claim states. -/
theorem claim_C8_cex :
    parseTranscription [["He", "llo"], [" ", "World"]] = "Hello\nWorld" ∧
      ("Hello\nWorld" : String) ≠ "Hello\n World" := by decide

/-- C8 (amended): parsing concatenates the word fragments of each
paragraph with no separator, strips each paragraph on both ends, drops
paragraphs that are empty after stripping, and joins the survivors with a
single newline (proved as a refinement: the code's loop equals the
map-filter-join written from the spec's words); on the example artifact
`[["He","llo"], [" ","World"]]` it yields `"Hello\nWorld"`. -/
theorem claim_C8 :
    (∀ paragraphs, parseTranscription paragraphs =
      parseTranscriptionSpec paragraphs) ∧
      parseTranscription [["He", "llo"], [" ", "World"]] = "Hello\nWorld" := by
  constructor
  · intro paragraphs
    unfold parseTranscription parseTranscriptionSpec
    rw [collectParas_eq]
  · decide

/-- C10 counterexample: in the environment whose job completes at once
with an artifact containing no paragraphs, `transcribe_audio` returns
`some ""` — neither `None` nor a non-empty string, refuting the claim's
"returns either None or a non-empty string". -/
theorem claim_C10_cex :
    (transcribe_audio c10cexEnv).1 = some "" ∧
      ¬((transcribe_audio c10cexEnv).1 = none ∨
        ∃ s, (transcribe_audio c10cexEnv).1 = some s ∧ s ≠ "") := by
  constructor
  · decide
  · intro h
    rcases h with h | ⟨s, hs, hne⟩
    · exact absurd h (by decide)
    · have h0 : (transcribe_audio c10cexEnv).1 = some "" := by decide
      rw [h0] at hs
      exact hne (Option.some_injective _ hs.symm)

/-- C10 (amended): `transcribe_audio` never propagates an exception
(every collaborator failure is a value in the model); it returns `None`
exactly when the upload or the submission fails, and every job-level and
artifact-level failure — job `FAILED` (any remote code/message), job
`INVALID`, poll timeout, `COMPLETED` without a result URL, and
download/parse failure — is delivered as a fixed non-empty
human-readable string through the same `some`-string channel as a
successful transcript, which may itself be the empty string. -/
theorem claim_C10 :
    (∀ env : Env,
      (transcribe_audio env).1 = none ↔ uploadFailed env ∨ submitFailed env) ∧
      ("转录文件解析失败" : String) ≠ "" ∧
      ("转录成功，但未找到结果文件URL" : String) ≠ "" ∧
      ("任务无效，请检查输入参数" : String) ≠ "" ∧
      ("任务处理超时" : String) ≠ "" ∧
      (∀ c m : String, jobFailedMsg c m ≠ "") := by
  refine ⟨?_, by decide, by decide, by decide, by decide, ?_⟩
  · intro env
    unfold transcribe_audio uploadFailed submitFailed
    cases hu : env.uploadResult with
    | none => simp
    | some u =>
      by_cases hu0 : u = ""
      · subst hu0
        simp
      · dsimp only
        rw [if_neg hu0]
        cases hs : env.submitResult with
        | none => simp [hu0]
        | some t =>
          by_cases ht0 : t = ""
          · subst ht0
            simp [hu0]
          · dsimp only
            rw [if_neg ht0]
            simp [hu0, ht0]
  · intro c m h
    have h2 := congrArg String.length h
    simp [jobFailedMsg, String.length_append] at h2
    exact absurd h2.1.1.1 (by decide)

end App
